import Mathlib

/-!
Verification development for the forecasting and decision core of the
Crypto-Upgrade-Monitor repository.

The embedding idealizes the floating-point source over the real numbers:
every arithmetic operation of the source is translated literally, and
division is total with x / 0 = 0 (the source, which has no division
guards, produces NaN or Infinity at those points; where a settled
property depends on such a point this is recorded alongside it).
Wall-clock reads and Math.random() calls are modelled as explicit
parameters, so every function is a pure function of its inputs.
-/

namespace CryptoMonitor

/-- Flow direction classification used by the liquidity model
(src/src/types and src/src/services/liquidityPrediction.ts). -/
inductive FlowDirection where
  | inflow
  | outflow
  | stable
  deriving DecidableEq

/-- Trading action produced by the decision engine (src/unnamed/part_001). -/
inductive Action where
  | buy
  | sell
  | hold
  | hedge
  deriving DecidableEq

/-- GARCH(1,1) parameter record (src/unnamed/part_002). -/
structure GarchParams where
  alpha : ℝ
  beta : ℝ
  omega : ℝ

/-- Output record of the volatility model (src/src/types/index.ts). -/
structure VolatilityPrediction where
  current : ℝ
  predicted1h : ℝ
  predicted24h : ℝ
  predicted7d : ℝ
  confidence : ℝ
  garchParams : GarchParams

/-- Output record of the liquidity model (src/src/types/index.ts). -/
structure LiquidityPrediction where
  currentTVL : ℝ
  predictedTVL1h : ℝ
  predictedTVL24h : ℝ
  predictedTVL7d : ℝ
  flowDirection : FlowDirection
  confidence : ℝ

/-- Risk assessment record consumed by the decision engine. -/
structure RiskAssessment where
  overall : ℝ
  technical : ℝ
  governance : ℝ
  market : ℝ
  liquidity : ℝ

/-- Market snapshot; only change24h is read by the decision engine. -/
structure MarketData where
  change24h : ℝ

/-- User profile; the source reads riskTolerance but never uses it. -/
structure UserProfile where
  riskTolerance : ℝ

/-- Upgrade event descriptor; the volatility model reads only riskScore,
the liquidity model reads the type string and riskScore. -/
structure UpgradeEvent where
  etype : String
  riskScore : ℝ

/-- One TVL history point (src/src/services/liquidityPrediction.ts). -/
structure TVLPoint where
  timestamp : ℤ
  tvl : ℝ

/-- Internal forecast bundle {h1, d1, d7, confidence} shared by both
forecasting services. -/
structure HorizonForecast where
  h1 : ℝ
  d1 : ℝ
  d7 : ℝ
  confidence : ℝ

/-- One row of the rebalancing recommendation list (src/unnamed/part_001). -/
structure RebalanceEntry where
  asset : String
  currentWeight : ℝ
  recommendedWeight : ℝ

namespace VolatilityModelingService

/-- Embeds calculateReturns (src/unnamed/part_002 lines 52-58): pushes
log(prices[i] / prices[i-1]) for i = 1 .. length-1. -/
noncomputable def calculateReturns : List ℝ → List ℝ
  | p :: q :: rest => Real.log (q / p) :: calculateReturns (q :: rest)
  | _ => []

/-- Embeds calculateVariance (src/unnamed/part_002 lines 165-169):
mean via reduce / length, then squared deviations / (length - 1). -/
noncomputable def calculateVariance (values : List ℝ) : ℝ :=
  let mean := values.sum / (values.length : ℝ)
  ((values.map fun v => (v - mean) ^ 2).sum) / ((values.length : ℝ) - 1)

/-- Embeds calculateAutocorrelation (src/unnamed/part_002 lines 171-189).
The fit computes it but never uses the value; kept for fidelity. -/
noncomputable def calculateAutocorrelation (values : List ℝ) (lag : ℕ) : ℝ :=
  if values.length ≤ lag then 0
  else
    let n := values.length - lag
    let mean := values.sum / (values.length : ℝ)
    let numerator :=
      (((values.take n).zip (values.drop lag)).map
        fun pr => (pr.1 - mean) * (pr.2 - mean)).sum
    let denominator := (values.map fun v => (v - mean) ^ 2).sum
    numerator / denominator

/-- Embeds the loop body of calculateGARCHGradient (src/unnamed/part_002
lines 104-113): walks consecutive return pairs carrying the recursive
variance and the three gradient accumulators. -/
noncomputable def gradAux (alpha beta omega : ℝ) :
    List ℝ → ℝ → ℝ × ℝ × ℝ → ℝ × ℝ × ℝ
  | rPrev :: r :: rest, variance, acc =>
      let prevVariance := variance
      let variance2 := omega + alpha * rPrev ^ 2 + beta * variance
      let residual := r ^ 2 - variance2
      gradAux alpha beta omega (r :: rest) variance2
        (acc.1 + residual * rPrev ^ 2 / variance2,
         acc.2.1 + residual * prevVariance / variance2,
         acc.2.2 + residual / variance2)
  | _, _, acc => acc

/-- Embeds calculateGARCHGradient (src/unnamed/part_002 lines 95-120):
seeds the variance path with the long-run variance omega/(1-alpha-beta)
and returns the negated, n-averaged accumulators. -/
noncomputable def calculateGARCHGradient (returns : List ℝ)
    (alpha beta omega : ℝ) : GarchParams :=
  let n : ℝ := returns.length
  let g := gradAux alpha beta omega returns (omega / (1 - alpha - beta)) (0, 0, 0)
  ⟨-g.1 / n, -g.2.1 / n, -g.2.2 / n⟩

/-- Embeds optimizeGARCH (src/unnamed/part_002 lines 81-93): one descent
step with learning rate 0.001 and the clamps
alpha, beta to [0.01, 0.99] and omega to [0.001, infinity). -/
noncomputable def optimizeGARCH (returns : List ℝ)
    (alpha beta omega : ℝ) : GarchParams :=
  let learningRate : ℝ := 0.001
  let gradient := calculateGARCHGradient returns alpha beta omega
  ⟨max 0.01 (min 0.99 (alpha - learningRate * gradient.alpha)),
   max 0.01 (min 0.99 (beta - learningRate * gradient.beta)),
   max 0.001 (omega - learningRate * gradient.omega)⟩

/-- Embeds the 100-step refinement loop of fitGARCH
(src/unnamed/part_002 lines 71-76). -/
noncomputable def fitIter (returns : List ℝ) : ℕ → GarchParams → GarchParams
  | 0, p => p
  | k + 1, p => fitIter returns k (optimizeGARCH returns p.alpha p.beta p.omega)

/-- Embeds fitGARCH (src/unnamed/part_002 lines 60-79): seeds
alpha = 0.1, beta = 0.85, omega = variance * (1 - alpha - beta) and runs
100 optimization steps.  The source also computes an autocorrelation it
never uses; kept as a dead binding. -/
noncomputable def fitGARCH (returns : List ℝ) : GarchParams :=
  let variance := calculateVariance returns
  let _autocorr := calculateAutocorrelation (returns.map fun r => r * r) 1
  let alpha : ℝ := 0.1
  let beta : ℝ := 0.85
  let omega : ℝ := variance * (1 - alpha - beta)
  fitIter returns 100 ⟨alpha, beta, omega⟩

/-- Embeds the EWMA update loop of calculateCurrentVolatility
(src/unnamed/part_002 lines 156-160), folded left over the visited
returns in index order. -/
noncomputable def ewmaFold (lambda : ℝ) : List ℝ → ℝ → ℝ
  | [], v => v
  | r :: rest, v => ewmaFold lambda rest (lambda * v + (1 - lambda) * r ^ 2)

/-- Embeds calculateCurrentVolatility (src/unnamed/part_002 lines
151-163): EWMA with lambda 0.94 over the last at most 20 returns
(the source loop skips negative indices, i.e. drops length - 20
elements with natural subtraction), seeded with the sample variance. -/
noncomputable def calculateCurrentVolatility (returns : List ℝ) : ℝ :=
  let lambda : ℝ := 0.94
  Real.sqrt (ewmaFold lambda (returns.drop (returns.length - 20))
    (calculateVariance returns))

/-- Embeds the event impact multiplier of generateVolatilityPredictions
(src/unnamed/part_002 lines 131-135): 1 + (riskScore/100) * 0.5 when an
upgrade event is supplied, else 1. -/
noncomputable def eventMultiplier : Option UpgradeEvent → ℝ
  | none => 1
  | some e => 1 + e.riskScore / 100 * 0.5

/-- Embeds generateVolatilityPredictions (src/unnamed/part_002 lines
122-149). -/
noncomputable def generateVolatilityPredictions (current : ℝ)
    (g : GarchParams) (upgradeEvent : Option UpgradeEvent) : HorizonForecast :=
  let longRunVariance := g.omega / (1 - g.alpha - g.beta)
  let m := eventMultiplier upgradeEvent
  let h1 := Real.sqrt (g.omega + g.alpha * current ^ 2 + g.beta * current ^ 2) * m
  let d1 := Real.sqrt (g.omega + (g.alpha + g.beta) * current ^ 2 +
      (1 - (g.alpha + g.beta) ^ (24 : ℕ)) / (1 - (g.alpha + g.beta)) *
      (longRunVariance - current ^ 2)) * m
  let d7 := Real.sqrt (longRunVariance + (g.alpha + g.beta) ^ (168 : ℕ) *
      (current ^ 2 - longRunVariance)) * m
  let confidence := max 0.5 (1 - |g.alpha + g.beta - 0.95|)
  ⟨h1, d1, d7, confidence⟩

/-- Embeds the try branch of predictVolatility (src/unnamed/part_002
lines 13-50).  In the real-valued embedding every operation is total, so
the catch branch (lines 33-49, which substitutes Math.random() values)
is unreachable; the body never raises a typed error of any kind. -/
noncomputable def predictVolatility (historicalPrices : List ℝ)
    (upgradeEvent : Option UpgradeEvent) : VolatilityPrediction :=
  let returns := calculateReturns historicalPrices
  let garchParams := fitGARCH returns
  let currentVolatility := calculateCurrentVolatility returns
  let predictions := generateVolatilityPredictions currentVolatility garchParams upgradeEvent
  ⟨currentVolatility, predictions.h1, predictions.d1, predictions.d7,
    predictions.confidence, garchParams⟩

end VolatilityModelingService

namespace LiquidityPredictionService

/-- Embeds calculateTrend (src/src/services/liquidityPrediction.ts lines
63-75): OLS slope of tvl against the 0-based index; 0 for fewer than 2
points. -/
noncomputable def calculateTrend (data : List TVLPoint) : ℝ :=
  if data.length < 2 then 0
  else
    let n : ℝ := data.length
    let sumX := ((List.range data.length).map fun i => (i : ℝ)).sum
    let sumY := (data.map fun d => d.tvl).sum
    let sumXY := (data.enum.map fun pr => (pr.1 : ℝ) * pr.2.tvl).sum
    let sumXX := ((List.range data.length).map fun i => ((i : ℝ)) ^ 2).sum
    (n * sumXY - sumX * sumY) / (n * sumXX - sumX * sumX)

/-- Embeds calculateSeasonality (src/src/services/liquidityPrediction.ts
lines 77-87) with the wall-clock reads passed in explicitly. -/
noncomputable def calculateSeasonality (hourOfDay dayOfWeek : ℕ) : ℝ :=
  let hourlyMultiplier : ℝ := if 8 ≤ hourOfDay ∧ hourOfDay ≤ 20 then 1.1 else 0.9
  let dailyMultiplier : ℝ := if 1 ≤ dayOfWeek ∧ dayOfWeek ≤ 5 then 1.05 else 0.95
  hourlyMultiplier * dailyMultiplier

/-- Embeds the period-over-period percentage change loop of
calculateTVLVolatility (src/src/services/liquidityPrediction.ts lines
92-95). -/
noncomputable def pctChanges : List TVLPoint → List ℝ
  | p :: q :: rest => (q.tvl - p.tvl) / p.tvl :: pctChanges (q :: rest)
  | _ => []

/-- Embeds calculateTVLVolatility (src/src/services/liquidityPrediction.ts
lines 89-101): 0.01 for fewer than 2 points, else the sample standard
deviation (n-1 denominator) of percentage changes. -/
noncomputable def calculateTVLVolatility (data : List TVLPoint) : ℝ :=
  if data.length < 2 then 0.01
  else
    let returns := pctChanges data
    let mean := returns.sum / (returns.length : ℝ)
    let variance :=
      ((returns.map fun r => (r - mean) ^ 2).sum) / ((returns.length : ℝ) - 1)
    Real.sqrt variance

/-- Embeds calculateEventImpact (src/src/services/liquidityPrediction.ts
lines 103-115). -/
noncomputable def calculateEventImpact (upgradeEvent : UpgradeEvent) : ℝ :=
  let baseMultiplier : ℝ :=
    if upgradeEvent.etype = "governance" then 0.95
    else if upgradeEvent.etype = "implementation" then 0.85
    else if upgradeEvent.etype = "parameter" then 1.05
    else 1.0
  let riskAdjustment := 1 - upgradeEvent.riskScore / 100 * 0.2
  baseMultiplier * riskAdjustment

/-- Embeds generateTVLPredictions (src/src/services/liquidityPrediction.ts
lines 117-140).  The three Math.random() - 0.5 draws of randomComponent
are passed as u1, u2, u3. -/
noncomputable def generateTVLPredictions (currentTVL trend seasonality
    volatility eventImpact u1 u2 u3 : ℝ) : HorizonForecast :=
  let h1 := currentTVL * (1 + trend * (1 / 24 / 365) + u1 * volatility) *
    seasonality * eventImpact
  let d1 := currentTVL * (1 + trend * (1 / 365) + u2 * volatility * Real.sqrt 24) *
    seasonality * eventImpact
  let d7 := currentTVL * (1 + trend * (7 / 365) + u3 * volatility * Real.sqrt (7 * 24)) *
    seasonality * eventImpact
  let confidence := max 0.4 (1 - volatility * 10)
  ⟨h1, d1, d7, confidence⟩

/-- Embeds determineFlowDirection (src/src/services/liquidityPrediction.ts
lines 142-148).  On current = 0 the source computes NaN, whose
comparisons are false, yielding stable; the embedding gives
(predicted - 0) / 0 = 0, yielding stable as well. -/
noncomputable def determineFlowDirection (predicted current : ℝ) : FlowDirection :=
  let change := (predicted - current) / current
  if change > 0.01 then FlowDirection.inflow
  else if change < -0.01 then FlowDirection.outflow
  else FlowDirection.stable

/-- Embeds the try branch of predictLiquidityFlow
(src/src/services/liquidityPrediction.ts lines 13-61), with the
wall-clock reads of calculateSeasonality and the three random draws of
generateTVLPredictions passed explicitly.  The body is total in the
embedding, so the catch branch (lines 47-60, random mock values) is
unreachable. -/
noncomputable def predictLiquidityFlow (historicalTVL : List TVLPoint)
    (upgradeEvent : Option UpgradeEvent) (hourOfDay dayOfWeek : ℕ)
    (u1 u2 u3 : ℝ) : LiquidityPrediction :=
  let currentTVL := (historicalTVL.getLast?.map TVLPoint.tvl).getD 0
  let trendComponent := calculateTrend historicalTVL
  let seasonalComponent := calculateSeasonality hourOfDay dayOfWeek
  let volatilityComponent := calculateTVLVolatility historicalTVL
  let eventImpact := match upgradeEvent with
    | none => 1
    | some e => calculateEventImpact e
  let predictions := generateTVLPredictions currentTVL trendComponent
    seasonalComponent volatilityComponent eventImpact u1 u2 u3
  ⟨currentTVL, predictions.h1, predictions.d1, predictions.d7,
    determineFlowDirection predictions.h1 currentTVL, predictions.confidence⟩

end LiquidityPredictionService

namespace ExecutionGuidanceService

/-- Embeds determineOptimalAction (src/unnamed/part_001 lines 77-109):
sequential score accumulation followed by the resolution rules. -/
noncomputable def determineOptimalAction (riskAssessment : RiskAssessment)
    (volatilityPrediction : VolatilityPrediction)
    (liquidityPrediction : LiquidityPrediction)
    (marketData : MarketData) : Action :=
  let s0 : ℤ := 0
  let s1 := if riskAssessment.overall < 30 then s0 + 2
    else if riskAssessment.overall > 70 then s0 - 2 else s0
  let s2 := if volatilityPrediction.predicted24h > volatilityPrediction.current * 1.5
    then s1 - 1 else s1
  let s3 := if liquidityPrediction.flowDirection = FlowDirection.inflow then s2 + 1
    else if liquidityPrediction.flowDirection = FlowDirection.outflow then s2 - 1 else s2
  let actionScore := if marketData.change24h > 5 then s3 + 1
    else if marketData.change24h < -5 then s3 - 1 else s3
  if actionScore ≥ 2 then Action.buy
  else if actionScore ≤ -2 then Action.sell
  else if riskAssessment.overall > 60 ∨ volatilityPrediction.predicted24h > 0.5
    then Action.hedge
  else Action.hold

/-- Reference definition following the wording of spec section 4.4
(scoring steps 1-5): the score is a sum of four independent summands and
is then resolved to an action.  Used only to compare with
determineOptimalAction, which is translated from the source. -/
noncomputable def specScore (riskAssessment : RiskAssessment)
    (volatilityPrediction : VolatilityPrediction)
    (liquidityPrediction : LiquidityPrediction)
    (marketData : MarketData) : ℤ :=
  (if riskAssessment.overall < 30 then 2
    else if riskAssessment.overall > 70 then -2 else 0)
  + (if volatilityPrediction.predicted24h > volatilityPrediction.current * 1.5
      then -1 else 0)
  + (if liquidityPrediction.flowDirection = FlowDirection.inflow then 1
      else if liquidityPrediction.flowDirection = FlowDirection.outflow then -1 else 0)
  + (if marketData.change24h > 5 then 1
      else if marketData.change24h < -5 then -1 else 0)

/-- Reference resolution rule following the wording of spec section 4.4
step 5. -/
noncomputable def specAction (riskAssessment : RiskAssessment)
    (volatilityPrediction : VolatilityPrediction)
    (liquidityPrediction : LiquidityPrediction)
    (marketData : MarketData) : Action :=
  let score := specScore riskAssessment volatilityPrediction liquidityPrediction marketData
  if score ≥ 2 then Action.buy
  else if score ≤ -2 then Action.sell
  else if riskAssessment.overall > 60 ∨ volatilityPrediction.predicted24h > 0.5
    then Action.hedge
  else Action.hold

/-- Embeds calculateRiskConsistency (src/unnamed/part_001 lines 124-138):
population variance (n denominator) over the four risk factors, then
max(0.3, 1 - sqrt(variance) / 50). -/
noncomputable def calculateRiskConsistency (riskAssessment : RiskAssessment) : ℝ :=
  let risks := [riskAssessment.technical, riskAssessment.governance,
    riskAssessment.market, riskAssessment.liquidity]
  let mean := risks.sum / (risks.length : ℝ)
  let variance := ((risks.map fun r => (r - mean) ^ 2).sum) / (risks.length : ℝ)
  max 0.3 (1 - Real.sqrt variance / 50)

/-- Embeds generateRiskMitigationStrategies (src/unnamed/part_001 lines
173-213): two baseline strategies, then conditional appends in source
order. -/
noncomputable def generateRiskMitigationStrategies
    (riskAssessment : RiskAssessment)
    (volatilityPrediction : VolatilityPrediction)
    (action : Action) : List String :=
  ["Implement stop-loss orders at 5-10% below entry",
   "Monitor market conditions every 4 hours"]
  ++ (if volatilityPrediction.predicted24h > 0.3 then
      ["Use smaller position sizes due to high volatility",
       "Consider options strategies for volatility hedging"] else [])
  ++ (if riskAssessment.governance > 60 then
      ["Monitor governance proposals closely",
       "Prepare for potential governance-driven price movements"] else [])
  ++ (if riskAssessment.liquidity > 60 then
      ["Ensure sufficient liquidity buffers",
       "Consider staggered entry/exit strategies"] else [])
  ++ (if riskAssessment.technical > 60 then
      ["Review smart contract audit reports",
       "Monitor protocol upgrade implementations"] else [])
  ++ (if action = Action.hedge then
      ["Use correlated assets for hedging",
       "Consider derivatives for downside protection"] else [])

/-- Embeds generateRebalancingRecommendations (src/unnamed/part_001 lines
215-264): fixed four-asset basket, USDC raised by up to 0.2 * overall
risk (capped at 0.5), protocol token halved (floor 0.05) under high
technical or governance risk, then all recommended weights divided by
their total.  The source also reads userProfile.riskTolerance into a
dead binding; marketData is unused. -/
noncomputable def generateRebalancingRecommendations
    (riskAssessment : RiskAssessment) (_marketData : MarketData)
    (userProfile : Option UserProfile) : List RebalanceEntry :=
  let _riskTolerance := (userProfile.map UserProfile.riskTolerance).getD 0.5
  let overallRisk := riskAssessment.overall / 100
  let usdcWeight : ℝ := min 0.5 (0.2 + overallRisk * 0.2)
  let protocolWeight : ℝ :=
    if riskAssessment.technical > 60 ∨ riskAssessment.governance > 60
    then max 0.05 (0.1 * 0.5) else 0.1
  let recommendations : List RebalanceEntry :=
    [⟨"ETH", 0.4, 0.4⟩, ⟨"BTC", 0.3, 0.3⟩,
     ⟨"USDC", 0.2, usdcWeight⟩, ⟨"PROTOCOL_TOKEN", 0.1, protocolWeight⟩]
  let totalWeight := (recommendations.map RebalanceEntry.recommendedWeight).sum
  recommendations.map fun rec =>
    ⟨rec.asset, rec.currentWeight, rec.recommendedWeight / totalWeight⟩

end ExecutionGuidanceService

/-- Proof infrastructure (not a source embedding): step-indexed invariant
for the GARCH refinement loop on the return series [15, 15].  After the
first step the fit pins alpha at the 0.99 clamp while beta drifts down
from 0.85 by at most 1e-7 per step and omega grows from 0.0045 by at
most 6e-6 per step. -/
def spikeInv (k : ℕ) (p : GarchParams) : Prop :=
  p.alpha = 0.99 ∧ 0.85 - (k : ℝ) * 0.0000001 ≤ p.beta ∧ p.beta ≤ 0.85 ∧
    0.0045 ≤ p.omega ∧ p.omega ≤ 0.0045 + (k : ℝ) * 0.000006

/-- Proof infrastructure (not a source embedding): step-indexed invariant
for the GARCH refinement loop on the all-zero return series [0, 0]
(flat prices).  After the first step alpha stays 0.1 and omega pins at
the 0.001 clamp, while beta drifts down from 0.85 by at most 1e-5 per
step. -/
def flatInv (k : ℕ) (p : GarchParams) : Prop :=
  p.alpha = 0.1 ∧ 0.85 - (k : ℝ) * 0.00001 ≤ p.beta ∧ p.beta ≤ 0.85 ∧
    p.omega = 0.001

/-! ## Theorems -/

open VolatilityModelingService LiquidityPredictionService ExecutionGuidanceService

/-- C7: for every risk vector (technical, governance, market, liquidity)
with each component in [0, 100], the risk-consistency confidence term
max(0.3, 1 - sqrt(variance)/50), computed with the n denominator over
the four components, lies in [0.3, 1.0]. -/
theorem riskConsistency_bounded (riskAssessment : RiskAssessment)
    (ht0 : 0 ≤ riskAssessment.technical) (ht1 : riskAssessment.technical ≤ 100)
    (hg0 : 0 ≤ riskAssessment.governance) (hg1 : riskAssessment.governance ≤ 100)
    (hm0 : 0 ≤ riskAssessment.market) (hm1 : riskAssessment.market ≤ 100)
    (hl0 : 0 ≤ riskAssessment.liquidity) (hl1 : riskAssessment.liquidity ≤ 100) :
    0.3 ≤ calculateRiskConsistency riskAssessment ∧
      calculateRiskConsistency riskAssessment ≤ 1 := by
  refine ⟨le_max_left _ _, ?_⟩
  apply max_le (by norm_num)
  exact sub_le_self _ (by positivity)

/-- C7 witness: the bound instantiated at the concrete risk vector
(technical, governance, market, liquidity) = (10, 20, 30, 40). -/
theorem riskConsistency_bounded_witness :
    0.3 ≤ calculateRiskConsistency ⟨50, 10, 20, 30, 40⟩ ∧
      calculateRiskConsistency ⟨50, 10, 20, 30, 40⟩ ≤ 1 :=
  riskConsistency_bounded ⟨50, 10, 20, 30, 40⟩ (by norm_num) (by norm_num)
    (by norm_num) (by norm_num) (by norm_num) (by norm_num) (by norm_num)
    (by norm_num)

/-- C8: for current TVL > 0 the flow direction is inflow exactly when the
relative change (predicted - current)/current exceeds 0.01, outflow
exactly when it is below -0.01, stable otherwise; and the three concrete
examples from the spec evaluate as stated. -/
theorem flowDirection_classification :
    (∀ predicted current : ℝ, 0 < current →
      ((determineFlowDirection predicted current = FlowDirection.inflow ↔
          (predicted - current) / current > 0.01) ∧
       (determineFlowDirection predicted current = FlowDirection.outflow ↔
          (predicted - current) / current < -0.01) ∧
       (determineFlowDirection predicted current = FlowDirection.stable ↔
          (¬ (predicted - current) / current > 0.01 ∧
           ¬ (predicted - current) / current < -0.01))))
    ∧ determineFlowDirection 1011 1000 = FlowDirection.inflow
    ∧ determineFlowDirection 989 1000 = FlowDirection.outflow
    ∧ determineFlowDirection 1005 1000 = FlowDirection.stable := by
  refine ⟨fun predicted current _ => ?_, ?_, ?_, ?_⟩
  · simp only [determineFlowDirection]
    split_ifs with h1 h2 <;> simp_all <;> linarith
  all_goals
    simp only [determineFlowDirection]
    norm_num

/-- C8 witness: the classification applied at current TVL 1000 and 1h
forecast 1011, with the positivity hypothesis discharged there. -/
theorem flowDirection_classification_witness :
    determineFlowDirection 1011 1000 = FlowDirection.inflow ↔
      ((1011 - 1000) : ℝ) / 1000 > 0.01 :=
  (flowDirection_classification.1 1011 1000 (by norm_num)).1

/-- C9: on the empty TVL history, predictLiquidityFlow (for any upgrade
event, wall-clock reading, and random draws) returns current TVL 0, all
three forecasts 0, and flow direction stable, even though the
classifier divides by the zero current TVL. -/
theorem predictLiquidityFlow_empty (upgradeEvent : Option UpgradeEvent)
    (hourOfDay dayOfWeek : ℕ) (u1 u2 u3 : ℝ) :
    (predictLiquidityFlow [] upgradeEvent hourOfDay dayOfWeek u1 u2 u3).currentTVL = 0 ∧
    (predictLiquidityFlow [] upgradeEvent hourOfDay dayOfWeek u1 u2 u3).predictedTVL1h = 0 ∧
    (predictLiquidityFlow [] upgradeEvent hourOfDay dayOfWeek u1 u2 u3).predictedTVL24h = 0 ∧
    (predictLiquidityFlow [] upgradeEvent hourOfDay dayOfWeek u1 u2 u3).predictedTVL7d = 0 ∧
    (predictLiquidityFlow [] upgradeEvent hourOfDay dayOfWeek u1 u2 u3).flowDirection =
      FlowDirection.stable := by
  simp only [predictLiquidityFlow, generateTVLPredictions, determineFlowDirection,
    calculateTrend, calculateTVLVolatility, List.getLast?, Option.map, Option.getD]
  norm_num

/-- Helper: the four normalized rebalancing weights sum to exactly 1
whenever the USDC weight is at least 0.2 and the protocol-token weight
at least 0.05 (which makes the total nonzero). -/
theorem rebalance_norm_sum (u p : ℝ) (hu : (0.2 : ℝ) ≤ u) (hp : (0.05 : ℝ) ≤ p) :
    0.4 / (0.4 + (0.3 + (u + (p + 0)))) + (0.3 / (0.4 + (0.3 + (u + (p + 0)))) +
      (u / (0.4 + (0.3 + (u + (p + 0)))) + (p / (0.4 + (0.3 + (u + (p + 0)))) + 0))) = 1 := by
  have hT : (0.4 + (0.3 + (u + (p + 0)))) ≠ 0 := by positivity
  field_simp

/-- Helper: lower bound for the adjusted USDC weight. -/
theorem usdcWeight_lower (overall : ℝ) (h0 : 0 ≤ overall) :
    (0.2 : ℝ) ≤ min 0.5 (0.2 + overall / 100 * 0.2) :=
  le_min (by norm_num) (by nlinarith)

/-- Helper: lower bound for the adjusted protocol-token weight. -/
theorem protocolWeight_lower (c : Prop) [Decidable c] :
    (0.05 : ℝ) ≤ if c then max 0.05 (0.1 * 0.5) else (0.1 : ℝ) := by
  split_ifs
  · exact le_max_left _ _
  · norm_num

/-- C5: for every risk assessment with overall risk in [0, 100] (and any
market data and user profile), the recommended rebalancing weights sum
to 1.0 within 1e-9. -/
theorem rebalancing_weights_sum_one (riskAssessment : RiskAssessment)
    (marketData : MarketData) (userProfile : Option UserProfile)
    (h0 : 0 ≤ riskAssessment.overall) (h1 : riskAssessment.overall ≤ 100) :
    |((generateRebalancingRecommendations riskAssessment marketData userProfile).map
        RebalanceEntry.recommendedWeight).sum - 1| ≤ 1e-9 := by
  simp only [generateRebalancingRecommendations, List.map_cons, List.map_nil,
    List.sum_cons, List.sum_nil]
  rw [rebalance_norm_sum _ _ (usdcWeight_lower riskAssessment.overall h0)
    (protocolWeight_lower _)]
  norm_num

/-- C5 witness: the sum bound at the concrete risk assessment with
overall 50, technical 70, governance 30, market 40, liquidity 20. -/
theorem rebalancing_weights_sum_one_witness :
    |((generateRebalancingRecommendations ⟨50, 70, 30, 40, 20⟩ ⟨2⟩ none).map
        RebalanceEntry.recommendedWeight).sum - 1| ≤ 1e-9 :=
  rebalancing_weights_sum_one ⟨50, 70, 30, 40, 20⟩ ⟨2⟩ none (by norm_num) (by norm_num)

/-- C10: for every risk assessment with overall risk in [0, 100], the
rebalancing output is exactly the four assets ETH, BTC, USDC,
PROTOCOL_TOKEN in that order with current weights 0.4, 0.3, 0.2, 0.1,
and the recommended ETH and BTC weights keep the 4:3 ratio (only the
USDC and protocol-token entries are adjusted before renormalization). -/
theorem rebalancing_frame (riskAssessment : RiskAssessment)
    (marketData : MarketData) (userProfile : Option UserProfile)
    (h0 : 0 ≤ riskAssessment.overall) (h1 : riskAssessment.overall ≤ 100) :
    ((generateRebalancingRecommendations riskAssessment marketData userProfile).map
        RebalanceEntry.asset = ["ETH", "BTC", "USDC", "PROTOCOL_TOKEN"]) ∧
    ((generateRebalancingRecommendations riskAssessment marketData userProfile).map
        RebalanceEntry.currentWeight = [0.4, 0.3, 0.2, 0.1]) ∧
    3 * (((generateRebalancingRecommendations riskAssessment marketData userProfile).map
        RebalanceEntry.recommendedWeight).getD 0 0) =
      4 * (((generateRebalancingRecommendations riskAssessment marketData userProfile).map
        RebalanceEntry.recommendedWeight).getD 1 0) ∧
    0 < ((generateRebalancingRecommendations riskAssessment marketData userProfile).map
        RebalanceEntry.recommendedWeight).getD 1 0 := by
  have hu := usdcWeight_lower riskAssessment.overall h0
  have hp := protocolWeight_lower
    (riskAssessment.technical > 60 ∨ riskAssessment.governance > 60)
  have hT : (0 : ℝ) < 0.4 + (0.3 + (min 0.5 (0.2 + riskAssessment.overall / 100 * 0.2) +
      ((if riskAssessment.technical > 60 ∨ riskAssessment.governance > 60
        then max 0.05 (0.1 * 0.5) else (0.1 : ℝ)) + 0))) := by linarith
  refine ⟨?_, ?_, ?_, ?_⟩
  · simp [generateRebalancingRecommendations]
  · simp [generateRebalancingRecommendations]
  · simp only [generateRebalancingRecommendations, List.map_cons, List.map_nil,
      List.sum_cons, List.sum_nil, List.getD_cons_zero, List.getD_cons_succ]
    ring
  · simp only [generateRebalancingRecommendations, List.map_cons, List.map_nil,
      List.sum_cons, List.sum_nil, List.getD_cons_zero, List.getD_cons_succ]
    positivity

/-- C10 witness: the frame facts at the concrete risk assessment with
overall 80, technical 70, governance 30, market 40, liquidity 20. -/
theorem rebalancing_frame_witness :
    ((generateRebalancingRecommendations ⟨80, 70, 30, 40, 20⟩ ⟨-3⟩ (some ⟨0.7⟩)).map
        RebalanceEntry.asset = ["ETH", "BTC", "USDC", "PROTOCOL_TOKEN"]) ∧
    ((generateRebalancingRecommendations ⟨80, 70, 30, 40, 20⟩ ⟨-3⟩ (some ⟨0.7⟩)).map
        RebalanceEntry.currentWeight = [0.4, 0.3, 0.2, 0.1]) ∧
    3 * (((generateRebalancingRecommendations ⟨80, 70, 30, 40, 20⟩ ⟨-3⟩ (some ⟨0.7⟩)).map
        RebalanceEntry.recommendedWeight).getD 0 0) =
      4 * (((generateRebalancingRecommendations ⟨80, 70, 30, 40, 20⟩ ⟨-3⟩ (some ⟨0.7⟩)).map
        RebalanceEntry.recommendedWeight).getD 1 0) ∧
    0 < ((generateRebalancingRecommendations ⟨80, 70, 30, 40, 20⟩ ⟨-3⟩ (some ⟨0.7⟩)).map
        RebalanceEntry.recommendedWeight).getD 1 0 :=
  rebalancing_frame ⟨80, 70, 30, 40, 20⟩ ⟨-3⟩ (some ⟨0.7⟩) (by norm_num) (by norm_num)

/-- C4: the decision action is a pure function of (risk, vol, liq,
market); it coincides everywhere with the additive reference scoring of
the spec, and the concrete example (overall 20, predicted24h = current
= 0.2, inflow, change24h 6) resolves to buy. -/
theorem optimalAction_matches_spec :
    (∀ (riskAssessment : RiskAssessment) (volatilityPrediction : VolatilityPrediction)
       (liquidityPrediction : LiquidityPrediction) (marketData : MarketData),
      determineOptimalAction riskAssessment volatilityPrediction liquidityPrediction
          marketData =
        specAction riskAssessment volatilityPrediction liquidityPrediction marketData)
    ∧ determineOptimalAction ⟨20, 50, 50, 50, 50⟩
        ⟨0.2, 0.2, 0.2, 0.2, 0.9, ⟨0.1, 0.85, 0.001⟩⟩
        ⟨1000, 1011, 1000, 1000, FlowDirection.inflow, 0.9⟩ ⟨6⟩ = Action.buy := by
  constructor
  · intro r v l m
    obtain ⟨ltvl, l1, l24, l7, fd, lconf⟩ := l
    cases fd <;>
      by_cases h1 : r.overall < 30 <;>
      by_cases h2 : r.overall > 70 <;>
      by_cases h3 : v.predicted24h > v.current * 1.5 <;>
      by_cases h4 : m.change24h > 5 <;>
      by_cases h5 : m.change24h < -5 <;>
      simp [determineOptimalAction, specAction, specScore, h1, h2, h3, h4, h5]
  · simp only [determineOptimalAction]
    norm_num

/-! ### Degenerate price histories (claim C2)

With fewer than 2 prices, calculateReturns produces the empty return
series and no code path raises an error: the source computes 0/0 terms
(NaN in JS, 0 in the embedding) and returns an ordinary prediction
record.  No InsufficientDataError exists anywhere in the repository. -/

/-- Helper: one unfolding step of the refinement loop. -/
theorem fitIter_succ (returns : List ℝ) (k : ℕ) (p : GarchParams) :
    fitIter returns (k + 1) p =
      fitIter returns k (optimizeGARCH returns p.alpha p.beta p.omega) := rfl

/-- Helper: on the empty return series the gradient is 0/0 = 0 in every
component, so one optimization step is pure clamping. -/
theorem optimizeGARCH_nil (alpha beta omega : ℝ) :
    optimizeGARCH [] alpha beta omega =
      ⟨max 0.01 (min 0.99 alpha), max 0.01 (min 0.99 beta), max 0.001 omega⟩ := by
  simp [optimizeGARCH, calculateGARCHGradient, gradAux]

/-- Helper: the parameter record (0.1, 0.85, 0.001) is a fixed point of
the optimization step on the empty return series. -/
theorem fitIter_nil_fixed (k : ℕ) :
    fitIter [] k ⟨0.1, 0.85, 0.001⟩ = ⟨0.1, 0.85, 0.001⟩ := by
  induction k with
  | zero => rfl
  | succ n ih =>
    rw [fitIter_succ, optimizeGARCH_nil]
    have h1 : min (0.99 : ℝ) 0.1 = 0.1 := min_eq_right (by norm_num)
    have h2 : max (0.01 : ℝ) 0.1 = 0.1 := max_eq_right (by norm_num)
    have h3 : min (0.99 : ℝ) 0.85 = 0.85 := min_eq_right (by norm_num)
    have h4 : max (0.01 : ℝ) 0.85 = 0.85 := max_eq_right (by norm_num)
    have h5 : max (0.001 : ℝ) 0.001 = 0.001 := max_self _
    simp only [h1, h2, h3, h4, h5]
    exact ih

/-- C2: on the single-point price history [100], calculateReturns yields
the empty return series, yet predictVolatility raises nothing and
returns an ordinary prediction record (parameters clamp to
(0.1, 0.85, 0.001) under the total-division embedding; the JS source
produces NaN fields the same way, through 0/0, and its only fallback is
the catch branch that fabricates Math.random() values). -/
theorem predictVolatility_short_history_no_error :
    calculateReturns [(100 : ℝ)] = [] ∧
    (predictVolatility [(100 : ℝ)] none).garchParams.alpha = 0.1 ∧
    (predictVolatility [(100 : ℝ)] none).garchParams.beta = 0.85 ∧
    (predictVolatility [(100 : ℝ)] none).garchParams.omega = 0.001 ∧
    (predictVolatility [(100 : ℝ)] none).current = 0 := by
  have hret : calculateReturns [(100 : ℝ)] = [] := rfl
  have hvar : calculateVariance ([] : List ℝ) = 0 := by
    simp [calculateVariance]
  have hfit : fitGARCH ([] : List ℝ) = ⟨0.1, 0.85, 0.001⟩ := by
    rw [fitGARCH]
    simp only [hvar, zero_mul]
    rw [show (100 : ℕ) = 99 + 1 from rfl, fitIter_succ, optimizeGARCH_nil]
    have h1 : min (0.99 : ℝ) 0.1 = 0.1 := min_eq_right (by norm_num)
    have h2 : max (0.01 : ℝ) 0.1 = 0.1 := max_eq_right (by norm_num)
    have h3 : min (0.99 : ℝ) 0.85 = 0.85 := min_eq_right (by norm_num)
    have h4 : max (0.01 : ℝ) 0.85 = 0.85 := max_eq_right (by norm_num)
    have h5 : max (0.001 : ℝ) 0 = 0.001 := max_eq_left (by norm_num)
    simp only [h1, h2, h3, h4, h5]
    exact fitIter_nil_fixed 99
  have hcur : calculateCurrentVolatility ([] : List ℝ) = 0 := by
    simp [calculateCurrentVolatility, ewmaFold, hvar]
  refine ⟨hret, ?_, ?_, ?_, ?_⟩ <;>
    simp [predictVolatility, hret, hfit, hcur]

/-! ### GARCH refinement on two-element return series (claims C1, C3, C6)

On a two-element return series the gradient loop runs exactly once, so
one optimization step has a closed algebraic form. -/

/-- Helper: closed form of one optimization step on a two-element return
series. -/
theorem optimizeGARCH_pair (a b w r0 r1 : ℝ) :
    optimizeGARCH [r0, r1] a b w =
      ⟨max 0.01 (min 0.99 (a + 0.0005 *
          ((r1 ^ 2 - (w + a * r0 ^ 2 + b * (w / (1 - a - b)))) * r0 ^ 2 /
            (w + a * r0 ^ 2 + b * (w / (1 - a - b)))))),
       max 0.01 (min 0.99 (b + 0.0005 *
          ((r1 ^ 2 - (w + a * r0 ^ 2 + b * (w / (1 - a - b)))) * (w / (1 - a - b)) /
            (w + a * r0 ^ 2 + b * (w / (1 - a - b)))))),
       max 0.001 (w + 0.0005 *
          ((r1 ^ 2 - (w + a * r0 ^ 2 + b * (w / (1 - a - b)))) /
            (w + a * r0 ^ 2 + b * (w / (1 - a - b)))))⟩ := by
  simp only [optimizeGARCH, calculateGARCHGradient, gradAux, List.length_cons,
    List.length_nil, zero_add, GarchParams.mk.injEq]
  refine ⟨?_, ?_, ?_⟩
  · congr 1
    congr 1
    push_cast
    ring
  · congr 1
    congr 1
    push_cast
    ring
  · congr 1
    push_cast
    ring

/-- Helper: first refinement step on the return series [15, 15] from the
method-of-moments seed (0.1, 0.85, 0): alpha clamps to 0.99. -/
theorem spike_first_step :
    optimizeGARCH [(15 : ℝ), 15] 0.1 0.85 0 = ⟨0.99, 0.85, 0.0045⟩ := by
  rw [optimizeGARCH_pair]
  have h0 : ((0 : ℝ) / (1 - 0.1 - 0.85)) = 0 := zero_div _
  simp only [GarchParams.mk.injEq, h0]
  norm_num [min_def, max_def]

set_option maxHeartbeats 1000000 in
/-- Helper: one refinement step on [15, 15] preserves the pinned state:
alpha stays at the 0.99 clamp, beta moves down by at most 1e-7, omega
moves up by at most 6e-6. -/
theorem spike_step (beta omega : ℝ) (hb1 : (0.8499 : ℝ) ≤ beta) (hb2 : beta ≤ 0.85)
    (hw1 : (0.0045 : ℝ) ≤ omega) (hw2 : omega ≤ (0.0051 : ℝ)) :
    (optimizeGARCH [(15 : ℝ), 15] 0.99 beta omega).alpha = 0.99 ∧
    beta - 0.0000001 ≤ (optimizeGARCH [(15 : ℝ), 15] 0.99 beta omega).beta ∧
    (optimizeGARCH [(15 : ℝ), 15] 0.99 beta omega).beta ≤ beta ∧
    omega ≤ (optimizeGARCH [(15 : ℝ), 15] 0.99 beta omega).omega ∧
    (optimizeGARCH [(15 : ℝ), 15] 0.99 beta omega).omega ≤ omega + 0.000006 := by
  rw [optimizeGARCH_pair]
  dsimp only
  set V0 := omega / (1 - 0.99 - beta) with hV0def
  set V := omega + 0.99 * 15 ^ 2 + beta * V0 with hVdef
  set R := 15 ^ 2 - V with hRdef
  clear_value V0 V R
  have hD : (1 : ℝ) - 0.99 - beta < 0 := by linarith
  have hV0ub : V0 ≤ -0.00535 := by
    rw [hV0def, div_le_iff_of_neg hD]
    nlinarith
  have hV0lb : (-0.0061 : ℝ) ≤ V0 := by
    rw [hV0def, le_div_iff_of_neg hD]
    nlinarith
  have hVlb : (222.749 : ℝ) ≤ V := by
    rw [hVdef]
    nlinarith
  have hVub : V ≤ (222.751 : ℝ) := by
    rw [hVdef]
    nlinarith
  have hVpos : (0 : ℝ) < V := by linarith
  have hRlb : (2.249 : ℝ) ≤ R := by
    rw [hRdef]
    nlinarith
  have hRub : R ≤ (2.251 : ℝ) := by
    rw [hRdef]
    nlinarith
  have hgA : 0 ≤ R * 15 ^ 2 / V :=
    div_nonneg (mul_nonneg (by linarith) (by positivity)) (le_of_lt hVpos)
  have hq2a : R * V0 / V ≤ 0 :=
    div_nonpos_of_nonpos_of_nonneg
      (mul_nonpos_of_nonneg_of_nonpos (by linarith) (by linarith)) (le_of_lt hVpos)
  have hq2b : (-0.0002 : ℝ) ≤ R * V0 / V := by
    rw [le_div_iff hVpos]
    nlinarith
  have hq3a : (0.01 : ℝ) ≤ R / V := by
    rw [le_div_iff hVpos]
    nlinarith
  have hq3b : R / V ≤ (0.0102 : ℝ) := by
    rw [div_le_iff hVpos]
    nlinarith
  have e1 : min 0.99 (0.99 + 0.0005 * (R * 15 ^ 2 / V)) = 0.99 :=
    min_eq_left (by linarith)
  have e1b : max 0.01 (0.99 : ℝ) = 0.99 := max_eq_right (by norm_num)
  have e2 : min 0.99 (beta + 0.0005 * (R * V0 / V)) =
      beta + 0.0005 * (R * V0 / V) := min_eq_right (by linarith)
  have e2b : max 0.01 (beta + 0.0005 * (R * V0 / V)) =
      beta + 0.0005 * (R * V0 / V) := max_eq_right (by linarith)
  have e4 : max 0.001 (omega + 0.0005 * (R / V)) = omega + 0.0005 * (R / V) :=
    max_eq_right (by linarith)
  rw [e1, e1b, e2, e2b, e4]
  refine ⟨rfl, by linarith, by linarith, by linarith, by linarith⟩

/-- Helper: the spike invariant is preserved by each refinement step. -/
theorem spikeInv_step (k : ℕ) (hk : k ≤ 99) (p : GarchParams) (h : spikeInv k p) :
    spikeInv (k + 1) (optimizeGARCH [(15 : ℝ), 15] p.alpha p.beta p.omega) := by
  obtain ⟨ha, hb1, hb2, hw1, hw2⟩ := h
  have hkr : (k : ℝ) ≤ 99 := by exact_mod_cast hk
  have hb1' : (0.8499 : ℝ) ≤ p.beta := by nlinarith
  have hw2' : p.omega ≤ (0.0051 : ℝ) := by nlinarith
  rw [ha]
  obtain ⟨sa, sb1, sb2, sw1, sw2⟩ := spike_step p.beta p.omega hb1' hb2 hw1 hw2'
  refine ⟨sa, ?_, by linarith, by linarith, ?_⟩
  · push_cast
    linarith
  · push_cast
    linarith

/-- Helper: the spike invariant propagates through the refinement loop. -/
theorem spikeInv_iter (k : ℕ) : ∀ (j : ℕ) (p : GarchParams), j + k ≤ 99 →
    spikeInv j p → spikeInv (j + k) (fitIter [(15 : ℝ), 15] k p) := by
  induction k with
  | zero => intro j p _ h; simpa using h
  | succ n ih =>
    intro j p hjk h
    rw [fitIter_succ]
    have h1 := spikeInv_step j (by omega) p h
    have heq : j + (n + 1) = (j + 1) + n := by omega
    rw [heq]
    exact ih (j + 1) _ (by omega) h1

/-- Helper: sample variance of the constant list [15, 15] is zero, so the
seed omega is zero. -/
theorem variance_spike : calculateVariance [(15 : ℝ), 15] = 0 := by
  simp [calculateVariance]

/-- Helper: the fitted parameters on the return series [15, 15] satisfy
the pinned invariant after the 100 refinement steps. -/
theorem fitGARCH_spike_inv : spikeInv 99 (fitGARCH [(15 : ℝ), 15]) := by
  rw [fitGARCH]
  simp only [variance_spike, zero_mul]
  rw [show (100 : ℕ) = 99 + 1 from rfl, fitIter_succ]
  dsimp only
  rw [spike_first_step]
  have h0 : spikeInv 0 ⟨0.99, 0.85, 0.0045⟩ := by
    refine ⟨rfl, ?_, ?_, ?_, ?_⟩ <;> norm_num
  have h := spikeInv_iter 99 0 ⟨0.99, 0.85, 0.0045⟩ (by omega) h0
  simpa using h

/-- C1 counterexample: on the return series [15, 15] the fitted
parameters after the 100 refinement steps have alpha + beta at least
1.83, so the claimed invariant alpha + beta < 1 fails. -/
theorem fitGARCH_persistence_counterexample :
    ¬ ((fitGARCH [(15 : ℝ), 15]).alpha + (fitGARCH [(15 : ℝ), 15]).beta < 1) := by
  obtain ⟨ha, hb1, _, _, _⟩ := fitGARCH_spike_inv
  rw [ha]
  push_neg
  push_cast at hb1
  linarith

/-- C1 amended: for every return series the fitted parameters after the
100 refinement steps satisfy the clamp bounds 0.01 <= alpha <= 0.99,
0.01 <= beta <= 0.99 and omega >= 0.001 (the alpha + beta < 1 part of
the claim is refuted by fitGARCH_persistence_counterexample). -/
theorem fitGARCH_bounds_after_refinement (returns : List ℝ) :
    0.01 ≤ (fitGARCH returns).alpha ∧ (fitGARCH returns).alpha ≤ 0.99 ∧
    0.01 ≤ (fitGARCH returns).beta ∧ (fitGARCH returns).beta ≤ 0.99 ∧
    0.001 ≤ (fitGARCH returns).omega := by
  have clamp : ∀ (a b w : ℝ),
      0.01 ≤ (optimizeGARCH returns a b w).alpha ∧
      (optimizeGARCH returns a b w).alpha ≤ 0.99 ∧
      0.01 ≤ (optimizeGARCH returns a b w).beta ∧
      (optimizeGARCH returns a b w).beta ≤ 0.99 ∧
      0.001 ≤ (optimizeGARCH returns a b w).omega := by
    intro a b w
    simp only [optimizeGARCH]
    exact ⟨le_max_left _ _, max_le (by norm_num) (min_le_left _ _),
      le_max_left _ _, max_le (by norm_num) (min_le_left _ _), le_max_left _ _⟩
  have key : ∀ (k : ℕ) (p : GarchParams),
      0.01 ≤ p.alpha ∧ p.alpha ≤ 0.99 ∧ 0.01 ≤ p.beta ∧ p.beta ≤ 0.99 ∧
        0.001 ≤ p.omega →
      0.01 ≤ (fitIter returns k p).alpha ∧ (fitIter returns k p).alpha ≤ 0.99 ∧
      0.01 ≤ (fitIter returns k p).beta ∧ (fitIter returns k p).beta ≤ 0.99 ∧
      0.001 ≤ (fitIter returns k p).omega := by
    intro k
    induction k with
    | zero => intro p h; exact h
    | succ n ih =>
      intro p _
      rw [fitIter_succ]
      exact ih _ (clamp _ _ _)
  rw [fitGARCH]
  rw [show (100 : ℕ) = 99 + 1 from rfl, fitIter_succ]
  exact key 99 _ (clamp _ _ _)

/-- Helper: the price history [1, e^15, e^30] has log-return series
[15, 15]. -/
theorem calculateReturns_exp :
    calculateReturns [(1 : ℝ), Real.exp 15, Real.exp 30] = [15, 15] := by
  have h1 : Real.log (Real.exp 15 / 1) = 15 := by
    rw [div_one, Real.log_exp]
  have h2 : Real.log (Real.exp 30 / Real.exp 15) = 15 := by
    rw [← Real.exp_sub, Real.log_exp]
    norm_num
  simp [calculateReturns, h1, h2]

/-- C3: on the price history [1, e^15, e^30] the fitted parameters have
alpha + beta at least 1.83 after clamping, yet predictVolatility raises
no ModelInstabilityError (no such error exists in the repository): it
returns an ordinary prediction record whose parameters witness the
non-mean-reverting regime.  There the 24h formula divides by the
negative 1 - (alpha + beta) and the source takes sqrt of a negative
number (NaN in JS). -/
theorem predictVolatility_instability_no_error :
    1 ≤ (predictVolatility [(1 : ℝ), Real.exp 15, Real.exp 30] none).garchParams.alpha +
        (predictVolatility [(1 : ℝ), Real.exp 15, Real.exp 30] none).garchParams.beta := by
  obtain ⟨ha, hb1, _, _, _⟩ := fitGARCH_spike_inv
  simp only [predictVolatility, calculateReturns_exp]
  rw [ha]
  push_cast at hb1
  linarith

/-! ### Flat price series (claim C6) -/

/-- Helper: log-return series of a constant positive price series is the
all-zero series (one element shorter). -/
theorem calculateReturns_replicate (p : ℝ) (hp : p ≠ 0) (n : ℕ) :
    calculateReturns (List.replicate (n + 1) p) = List.replicate n 0 := by
  induction n with
  | zero => rfl
  | succ m ih =>
    rw [List.replicate_succ, List.replicate_succ]
    rw [show calculateReturns (p :: p :: List.replicate m p) =
      Real.log (p / p) :: calculateReturns (p :: List.replicate m p) from rfl]
    rw [div_self hp, Real.log_one, ← List.replicate_succ, ih, ← List.replicate_succ]

/-- Helper: the sample variance of an all-zero series is 0 (for a single
element the source computes 0/0, which the embedding reads as 0). -/
theorem variance_replicate_zero (m : ℕ) :
    calculateVariance (List.replicate m 0) = 0 := by
  simp [calculateVariance]

/-- Helper: the EWMA loop keeps a zero variance at zero on an all-zero
series. -/
theorem ewmaFold_replicate_zero (lambda : ℝ) (m : ℕ) :
    ewmaFold lambda (List.replicate m 0) 0 = 0 := by
  induction m with
  | zero => rfl
  | succ k ih =>
    rw [List.replicate_succ]
    rw [show ewmaFold lambda ((0 : ℝ) :: List.replicate k 0) 0 =
      ewmaFold lambda (List.replicate k 0) (lambda * 0 + (1 - lambda) * 0 ^ 2) from rfl]
    rw [show lambda * 0 + (1 - lambda) * (0 : ℝ) ^ 2 = 0 by ring]
    exact ih

/-- Helper: the current-volatility estimate of an all-zero return series
is 0. -/
theorem currentVol_replicate_zero (m : ℕ) :
    calculateCurrentVolatility (List.replicate m 0) = 0 := by
  rw [calculateCurrentVolatility]
  rw [List.drop_replicate, variance_replicate_zero, ewmaFold_replicate_zero,
    Real.sqrt_zero]

/-- Helper: closed form of one optimization step on the all-zero
two-element return series: alpha is untouched, beta moves by the
long-run-variance seed, omega moves down by the fixed amount 0.0005. -/
theorem optimizeGARCH_flat_pair (a b w : ℝ)
    (hV : w + a * 0 ^ 2 + b * (w / (1 - a - b)) ≠ 0) :
    optimizeGARCH [(0 : ℝ), 0] a b w =
      ⟨max 0.01 (min 0.99 a),
       max 0.01 (min 0.99 (b - 0.0005 * (w / (1 - a - b)))),
       max 0.001 (w - 0.0005)⟩ := by
  rw [optimizeGARCH_pair]
  generalize ht : w / (1 - a - b) = t at hV ⊢
  have hV2 : w + b * t ≠ 0 := by
    intro h0
    exact hV (by rw [show w + a * 0 ^ 2 + b * t = w + b * t from by ring, h0])
  simp only [GarchParams.mk.injEq]
  refine ⟨?_, ?_, ?_⟩
  · congr 1
    congr 1
    ring
  · congr 1
    congr 1
    field_simp [hV2]
    ring
  · congr 1
    field_simp [hV2]
    ring

/-- Helper: first refinement step on the all-zero return series from the
zero-variance seed (0.1, 0.85, 0): pure clamping lifts omega to
0.001 (in the source this step computes 0/0 gradients, NaN in JS). -/
theorem flat_first_step :
    optimizeGARCH [(0 : ℝ), 0] 0.1 0.85 0 = ⟨0.1, 0.85, 0.001⟩ := by
  rw [optimizeGARCH_pair]
  norm_num [min_def, max_def]

/-- Helper: one refinement step on the all-zero return series preserves
the flat state: alpha stays 0.1, omega stays pinned at the 0.001 clamp,
beta moves down by at most 1e-5. -/
theorem flat_step (beta : ℝ) (hb1 : (0.849 : ℝ) ≤ beta) (hb2 : beta ≤ 0.85) :
    (optimizeGARCH [(0 : ℝ), 0] 0.1 beta 0.001).alpha = 0.1 ∧
    beta - 0.00001 ≤ (optimizeGARCH [(0 : ℝ), 0] 0.1 beta 0.001).beta ∧
    (optimizeGARCH [(0 : ℝ), 0] 0.1 beta 0.001).beta ≤ beta ∧
    (optimizeGARCH [(0 : ℝ), 0] 0.1 beta 0.001).omega = 0.001 := by
  have hD : (0 : ℝ) < 1 - 0.1 - beta := by linarith
  have hV0pos : (0 : ℝ) < 0.001 / (1 - 0.1 - beta) := div_pos (by norm_num) hD
  have hV0ub : (0.001 : ℝ) / (1 - 0.1 - beta) ≤ 0.02 := by
    rw [div_le_iff hD]
    nlinarith
  have hV0lb : (0.0196 : ℝ) ≤ 0.001 / (1 - 0.1 - beta) := by
    rw [le_div_iff hD]
    nlinarith
  have hV : (0.001 : ℝ) + 0.1 * 0 ^ 2 + beta * (0.001 / (1 - 0.1 - beta)) ≠ 0 := by
    have : (0 : ℝ) < beta * (0.001 / (1 - 0.1 - beta)) :=
      mul_pos (by linarith) hV0pos
    positivity
  rw [optimizeGARCH_flat_pair 0.1 beta 0.001 hV]
  dsimp only
  have e1 : min (0.99 : ℝ) 0.1 = 0.1 := min_eq_right (by norm_num)
  have e1b : max (0.01 : ℝ) 0.1 = 0.1 := max_eq_right (by norm_num)
  have e2 : min 0.99 (beta - 0.0005 * (0.001 / (1 - 0.1 - beta))) =
      beta - 0.0005 * (0.001 / (1 - 0.1 - beta)) := min_eq_right (by nlinarith)
  have e2b : max 0.01 (beta - 0.0005 * (0.001 / (1 - 0.1 - beta))) =
      beta - 0.0005 * (0.001 / (1 - 0.1 - beta)) := max_eq_right (by nlinarith)
  have e3 : max (0.001 : ℝ) (0.001 - 0.0005) = 0.001 := max_eq_left (by norm_num)
  rw [e1, e1b, e2, e2b, e3]
  refine ⟨rfl, by nlinarith, by nlinarith, rfl⟩

/-- Helper: the flat invariant is preserved by each refinement step. -/
theorem flatInv_step (k : ℕ) (hk : k ≤ 99) (p : GarchParams) (h : flatInv k p) :
    flatInv (k + 1) (optimizeGARCH [(0 : ℝ), 0] p.alpha p.beta p.omega) := by
  obtain ⟨ha, hb1, hb2, hw⟩ := h
  have hkr : (k : ℝ) ≤ 99 := by exact_mod_cast hk
  have hb1' : (0.849 : ℝ) ≤ p.beta := by nlinarith
  rw [ha, hw]
  obtain ⟨sa, sb1, sb2, sw⟩ := flat_step p.beta hb1' hb2
  refine ⟨sa, ?_, by linarith, sw⟩
  push_cast
  linarith

/-- Helper: the flat invariant propagates through the refinement loop. -/
theorem flatInv_iter (k : ℕ) : ∀ (j : ℕ) (p : GarchParams), j + k ≤ 99 →
    flatInv j p → flatInv (j + k) (fitIter [(0 : ℝ), 0] k p) := by
  induction k with
  | zero => intro j p _ h; simpa using h
  | succ n ih =>
    intro j p hjk h
    rw [fitIter_succ]
    have h1 := flatInv_step j (by omega) p h
    have heq : j + (n + 1) = (j + 1) + n := by omega
    rw [heq]
    exact ih (j + 1) _ (by omega) h1

/-- Helper: the fitted parameters on the all-zero return series satisfy
the flat invariant after the 100 refinement steps. -/
theorem fitGARCH_flat_inv : flatInv 99 (fitGARCH [(0 : ℝ), 0]) := by
  rw [fitGARCH]
  have hv : calculateVariance [(0 : ℝ), 0] = 0 := by
    simp [calculateVariance]
  simp only [hv, zero_mul]
  rw [show (100 : ℕ) = 99 + 1 from rfl, fitIter_succ]
  dsimp only
  rw [flat_first_step]
  have h0 : flatInv 0 ⟨0.1, 0.85, 0.001⟩ := by
    refine ⟨rfl, ?_, ?_, rfl⟩ <;> norm_num
  have h := flatInv_iter 99 0 ⟨0.1, 0.85, 0.001⟩ (by omega) h0
  simpa using h

/-- C6 counterexample: on the strictly flat positive price series
[10, 10, 10] (no upgrade event) the 24h forecast does not equal
sqrt(omega) times the event multiplier: the 24h formula adds the
positive mean-reversion term (1-s^24)/(1-s) * longRunVariance, so it is
strictly larger. -/
theorem predictVolatility_flat_24h_counterexample :
    (predictVolatility [(10 : ℝ), 10, 10] none).predicted24h ≠
      Real.sqrt ((predictVolatility [(10 : ℝ), 10, 10] none).garchParams.omega) *
        eventMultiplier none := by
  have hret : calculateReturns [(10 : ℝ), 10, 10] = [0, 0] := by
    norm_num [calculateReturns, Real.log_one]
  obtain ⟨ha, hb1, hb2, hw⟩ := fitGARCH_flat_inv
  push_cast at hb1
  have hcur : calculateCurrentVolatility [(0 : ℝ), 0] = 0 := by
    rw [show [(0 : ℝ), 0] = List.replicate 2 0 from rfl]
    exact currentVol_replicate_zero 2
  simp only [predictVolatility, hret, generateVolatilityPredictions, eventMultiplier,
    hcur, ha, hw]
  rw [mul_one, mul_one]
  set β := (fitGARCH [(0 : ℝ), 0]).beta with hβ
  clear_value β
  have hs1 : (0 : ℝ) < 1 - (0.1 + β) := by linarith
  have hs1' : (0 : ℝ) < 1 - 0.1 - β := by linarith
  have hs24 : ((0.1 : ℝ) + β) ^ 24 < 1 :=
    pow_lt_one (by linarith) (by linarith) (by norm_num)
  have hΩ : (0 : ℝ) < 0.001 / (1 - 0.1 - β) := div_pos (by norm_num) hs1'
  have hpos : 0 < (1 - (0.1 + β) ^ 24) / (1 - (0.1 + β)) *
      (0.001 / (1 - 0.1 - β) - 0 ^ 2) := by
    apply mul_pos (div_pos (by linarith) hs1)
    simpa using hΩ
  apply ne_of_gt
  apply Real.sqrt_lt_sqrt (by norm_num)
  nlinarith [hpos]

/-- C6 amended: for every strictly flat positive price series of length
at least 2 and any optional upgrade event, predictVolatility returns
current volatility 0 and a 1h forecast equal to sqrt(omega) times the
event multiplier, omega being the fitted parameter.  (The 24h and 7d
forecasts involve the long-run variance and do not reduce to that form:
see predictVolatility_flat_24h_counterexample.) -/
theorem predictVolatility_flat_series (p : ℝ) (hp : 0 < p) (n : ℕ) (hn : 2 ≤ n)
    (upgradeEvent : Option UpgradeEvent) :
    (predictVolatility (List.replicate n p) upgradeEvent).current = 0 ∧
    (predictVolatility (List.replicate n p) upgradeEvent).predicted1h =
      Real.sqrt ((predictVolatility (List.replicate n p) upgradeEvent).garchParams.omega) *
        eventMultiplier upgradeEvent := by
  obtain ⟨m, rfl⟩ : ∃ m, n = m + 1 := ⟨n - 1, by omega⟩
  have hret := calculateReturns_replicate p (ne_of_gt hp) m
  simp only [predictVolatility, hret, generateVolatilityPredictions,
    currentVol_replicate_zero]
  constructor
  · trivial
  · norm_num

/-- C6 witness: the amended flat-series property instantiated at the
price series [10, 10, 10] with no upgrade event. -/
theorem predictVolatility_flat_series_witness :
    (predictVolatility (List.replicate 3 (10 : ℝ)) none).current = 0 ∧
    (predictVolatility (List.replicate 3 (10 : ℝ)) none).predicted1h =
      Real.sqrt ((predictVolatility (List.replicate 3 (10 : ℝ)) none).garchParams.omega) *
        eventMultiplier none :=
  predictVolatility_flat_series 10 (by norm_num) 3 (by norm_num) none

end CryptoMonitor
